import Mathlib

/-!
Shallow embedding of the persistence layer in `src/py/DB.py`.

Python strings are modelled as `List Char` (the character sequence of the
text); Python `str.split`, `str.rjust`, `str.strip`, `str.lower`,
`str.join` and `%`-interpolation are embedded as the structurally
recursive list functions below.  Fallible operations return `Option` or
`Except`.  Where a property depends on the behaviour of the external
sqlite engine (which is not part of this repository), the modelled engine
rule is a separate definition whose doc comment states the modelling
assumption.
-/

namespace DB

/-- Python `s.split(c)`: split on every occurrence of the character `c`,
keeping empty fragments; splitting the empty string yields `[[]]`. -/
def splitOn (c : Char) : List Char → List (List Char)
  | [] => [[]]
  | a :: rest =>
    match splitOn c rest with
    | [] => if a = c then [[], []] else [[a]]
    | h :: t => if a = c then [] :: h :: t else (a :: h) :: t

/-- Python `s.rjust(n)`: left-pad with spaces to width `n` (no-op when the
string is already at least that wide). -/
def rjust (n : Nat) (s : List Char) : List Char :=
  List.replicate (n - s.length) ' ' ++ s

/-- Python `s.strip()`: remove leading and trailing whitespace. -/
def strip (s : List Char) : List Char :=
  ((s.dropWhile Char.isWhitespace).reverse.dropWhile Char.isWhitespace).reverse

/-- Python `s.lower()` for the ASCII text appearing in schemas. -/
def lower (s : List Char) : List Char :=
  s.map Char.toLower

/-- Reformatting of one column clause in `DB.create_table`
(src/py/DB.py:166): `'%s %s' % (fields[0].rjust(16), ' '.join(fields[1:]).strip())`. -/
def formatRow (fields : List (List Char)) : List Char :=
  rjust 16 (fields.headD []) ++ [' '] ++ strip (List.intercalate [' '] fields.tail)

/-- The `hit_keys` classification loop of `DB.create_table`
(src/py/DB.py:156-166): each comma-split fragment is split on spaces; once a
fragment whose first space-token lowercases to `primary` or `foreign` is
seen, that fragment and every later one goes to the key list, earlier ones
are reformatted column clauses. -/
def classifyRows : List (List Char) → Bool → List (List Char) × List (List Char)
  | [], _ => ([], [])
  | row :: rest, hitKeys =>
    let fields := splitOn ' ' row
    let first := lower (fields.headD [])
    let hit := hitKeys || (first = "primary".data || first = "foreign".data)
    let r := classifyRows rest hit
    if hit then (r.1, row :: r.2) else (formatRow fields :: r.1, r.2)

/-- One step view of the key-rejoining `while` loop of `DB.create_table`
(src/py/DB.py:168-173), with `cur` the fragment at the loop index: while the
current fragment contains `(` but not `)` it absorbs the following fragment
(joined with a comma, the Python `keys[i] = '%s,%s' % (keys[i], keys.pop(i+1))`);
otherwise the index advances.  `none` models the Python `IndexError` raised by
`keys.pop(i+1)` when no fragment follows. -/
def rejoinGo (cur : List Char) : List (List Char) → Option (List (List Char))
  | [] => if '(' ∈ cur ∧ ')' ∉ cur then none else some [cur]
  | k :: rest =>
    if '(' ∈ cur ∧ ')' ∉ cur then
      rejoinGo (cur ++ [','] ++ k) rest
    else
      (rejoinGo k rest).map (fun ks => cur :: ks)

/-- The key-rejoining loop of `DB.create_table` (src/py/DB.py:168-173) run on
the whole key-fragment list. -/
def rejoinKeys : List (List Char) → Option (List (List Char))
  | [] => some []
  | k :: rest => rejoinGo k rest

/-- Column clauses and raw key fragments produced from a schema description
by `DB.create_table` before key rejoining (src/py/DB.py:156-166). -/
def create_table_parts (schema : List Char) : List (List Char) × List (List Char) :=
  classifyRows (splitOn ',' schema) false

/-- The full statement text built by `DB.create_table` (src/py/DB.py:175-176);
`none` models the `IndexError` escaping from the rejoin loop. -/
def create_table_query (table_name schema : List Char) : Option (List Char) :=
  match rejoinKeys (create_table_parts schema).2 with
  | none => none
  | some keys =>
    some ("create table if not exists ".data ++ table_name
      ++ "(\n".data ++ List.intercalate ",\n".data (create_table_parts schema).1
      ++ (if keys.length > 0 then [','] else [])
      ++ "\n".data ++ List.intercalate ",\n".data keys ++ [')'])

/-- Schema description of the `albums` table (src/py/DB.py:27-41). -/
def albumsSchema : String :=
  "name       text primary key," ++ "url        text," ++ "host       text,"
  ++ "ready      integer," ++ "pending    integer," ++ "filesize   integer,"
  ++ "path       text," ++ "created    integer," ++ "modified   integer,"
  ++ "accessed   integer," ++ "count      integer," ++ "zip        text,"
  ++ "views      integer," ++ "metadata   text"

/-- Schema description of the `medias` table (src/py/DB.py:43-59). -/
def mediasSchema : String :=
  "albumid    integer," ++ "i_index    integer," ++ "url        text,"
  ++ "downloaded integer," ++ "saveas     text," ++ "type       text,"
  ++ "path       text," ++ "width      integer," ++ "height     integer,"
  ++ "filesize   integer," ++ "thumb      text," ++ "t_width    integer,"
  ++ "t_height   integer," ++ "metadata   text,"
  ++ "foreign key(albumid) references albums(rowid),"
  ++ "primary key(albumid, i_index)"

/-- Schema description of the `urls` table (src/py/DB.py:61-68). -/
def urlsSchema : String :=
  "albumid  integer," ++ "i_index  integer," ++ "url      text,"
  ++ "saveas   text," ++ "type     text," ++ "metadata text," ++ "added    integer"

/-- Schema description of the `metadata` table (src/py/DB.py:70-75). -/
def metadataSchema : String :=
  "albumid integer," ++ "key     text," ++ "value   text,"
  ++ "foreign key(albumid) references albums(rowid)," ++ "primary key(albumid, key)"

/-- Schema description of the `sites` table (src/py/DB.py:77-80). -/
def sitesSchema : String :=
  "host      text primary key," ++ "available integer," ++ "message   text"

/-- Schema description of the `config` table (src/py/DB.py:82-84). -/
def configSchema : String :=
  "key   text primary key," ++ "value text"

/-- The `SCHEMA` mapping from table names to schema descriptions
(src/py/DB.py:26-85), as insertion-ordered pairs. -/
def SCHEMA : List (String × String) :=
  [("albums", albumsSchema), ("medias", mediasSchema), ("urls", urlsSchema),
   ("metadata", metadataSchema), ("sites", sitesSchema), ("config", configSchema)]

/-- One insertion into a Python dict modelled as an insertion-ordered
association list: an existing key has its value overwritten in place, a new
key is appended. -/
def dictInsert (m : List (String × String)) (k v : String) : List (String × String) :=
  if m.any (fun p => p.1 == k) then
    m.map (fun p => if p.1 == k then (k, v) else p)
  else
    m ++ [(k, v)]

/-- Evaluation of a Python dict literal: the written entries are inserted
left to right, so a later entry for the same key overwrites the earlier one. -/
def pyDict (entries : List (String × String)) : List (String × String) :=
  entries.foldl (fun m p => dictInsert m p.1 p.2) []

/-- The entries of the `INDICES` dict literal exactly as written in the source
(src/py/DB.py:91-102), in source order, before dict evaluation collapses
duplicate keys. -/
def INDICES_entries : List (String × String) :=
  [("albums", "ready"), ("albums", "host"), ("albums", "created"),
   ("albums", "accessed"), ("albums", "views"), ("medias", "albumid"),
   ("medias", "status"), ("medias", "path"), ("medias", "url"),
   ("config", "key")]

/-- The `INDICES` mapping (src/py/DB.py:91-102): the dict value the literal
evaluates to. -/
def INDICES : List (String × String) :=
  pyDict INDICES_entries

/-- Index name derivation in `DB.create_index` when no explicit name is given
(src/py/DB.py:187-188): `'%s_%s' % (index, key.replace(',', '_'))`. -/
def create_index_name (index key : List Char) : List Char :=
  index ++ ['_'] ++ key.map (fun c => if c = ',' then '_' else c)

/-- The statement text built by `DB.create_index` (src/py/DB.py:189-193). -/
def create_index_query (name index key : List Char) : List Char :=
  "\n\t\t\tcreate index \n\t\t\t\tif not exists \n\t\t\t\t".data ++ name
    ++ " on ".data ++ index ++ ['('] ++ key ++ ")\n\t\t".data

/-- Outcome of one attempt of the underlying `self.conn.commit()` call:
success, a lock-contention failure, or a failure of any other class. -/
inductive CommitOutcome where
  | ok
  | lockContention
  | otherFailure
deriving DecidableEq

/-- Observable result of running `DB.commit` (src/py/DB.py:198-209) against a
trace of attempt outcomes: how many attempts were consumed, the sleeps (in
milliseconds) performed between attempts, which failure (if any) was surfaced
to the caller, and whether the call returned. -/
structure CommitRun where
  attempts : Nat
  sleepsMs : List Nat
  surfaced : Option CommitOutcome
  returned : Bool
deriving DecidableEq

/-- The `while True` loop of `DB.commit` (src/py/DB.py:203-209) run against a
finite trace of outcomes of the successive `self.conn.commit()` attempts: the
bare `except:` catches every failure class, sleeps 100 ms (`sleep(0.1)`) and
retries; the loop only ends by returning after a successful attempt.  When the
trace is exhausted without a success the run has consumed every attempt and
has not returned (the loop is still running). -/
def commitRun : List CommitOutcome → CommitRun
  | [] => ⟨0, [], none, false⟩
  | CommitOutcome.ok :: _ => ⟨1, [], none, true⟩
  | CommitOutcome.lockContention :: rest =>
    let r := commitRun rest
    ⟨r.attempts + 1, 100 :: r.sleepsMs, r.surfaced, r.returned⟩
  | CommitOutcome.otherFailure :: rest =>
    let r := commitRun rest
    ⟨r.attempts + 1, 100 :: r.sleepsMs, r.surfaced, r.returned⟩

/-- Observable store-level actions performed during initialization: executing
a statement text, or committing. -/
inductive Event where
  | exec : List Char → Event
  | commitEv : Event
deriving DecidableEq

/-- Events performed by one `DB.create_table` call (src/py/DB.py:145-179): it
executes the built statement and then calls `self.commit()` (line 178). -/
def create_table_events (name schema : String) : Option (List Event) :=
  (create_table_query name.data schema.data).map
    (fun q => [Event.exec q, Event.commitEv])

/-- Events performed by one `DB.create_index` call with a defaulted name
(src/py/DB.py:181-196): it executes the built statement and then calls
`self.commit()` (line 195). -/
def create_index_events (index key : String) : List Event :=
  [Event.exec (create_index_query (create_index_name index.data key.data)
      index.data key.data),
   Event.commitEv]

/-- Events of the table-creation loop of `DB.__init__` (src/py/DB.py:123-124),
in sequence; `none` if any `create_table` call fails. -/
def tables_events : List (String × String) → Option (List Event)
  | [] => some []
  | (n, s) :: rest =>
    match create_table_events n s, tables_events rest with
    | some e, some es => some (e ++ es)
    | _, _ => none

/-- Events performed by `DB.__init__` (src/py/DB.py:110-131): every declared
table is created, every declared index is created, then one final
`self.commit()` (line 131). -/
def init_events : Option (List Event) :=
  match tables_events SCHEMA with
  | none => none
  | some ts =>
    some (ts ++ (INDICES.map (fun p => create_index_events p.1 p.2)).flatten
      ++ [Event.commitEv])

/-- Number of commits in an event trace. -/
def countCommits (evs : List Event) : Nat :=
  evs.countP (fun e => e == Event.commitEv)

/-- Failure classes observable from `DB.select_one` (src/py/DB.py:285-295):
`noRowsReturned` models the `Exception('no rows returned')` it raises on an
empty result (the error the spec names NotFoundError), `indexFailure` models
the Python `IndexError` of `ex[0]` on an empty row. -/
inductive DBErr where
  | noRowsReturned
  | indexFailure
deriving DecidableEq

/-- Result-set semantics of the statement built by `DB.select`
(src/py/DB.py:258-283): the engine evaluates
`select {what} FROM {table} [WHERE {where}]` by keeping the rows of the table
satisfying the predicate and applying the projection to each, in table order.
The caller-supplied predicate fragment with its bound values is modelled as a
Boolean function on rows, the projection as a row function. -/
def selectRows {α : Type} (proj : List α → List α) (pred : List α → Bool)
    (tableRows : List (List α)) : List (List α) :=
  (tableRows.filter pred).map proj

/-- Python `cursor.fetchone()`: the first row of the result set, if any. -/
def fetchone {α : Type} (rs : List (List α)) : Option (List α) :=
  rs.head?

/-- `DB.select_one` (src/py/DB.py:285-295): fetches the first row of the
`select` result; raises `Exception('no rows returned')` when there is none,
otherwise returns the row's first column (`ex[0]`). -/
def select_one {α : Type} (proj : List α → List α) (pred : List α → Bool)
    (tableRows : List (List α)) : Except DBErr α :=
  match fetchone (selectRows proj pred tableRows) with
  | none => Except.error DBErr.noRowsReturned
  | some r =>
    match r.head? with
    | none => Except.error DBErr.indexFailure
    | some v => Except.ok v

/-- The rows of the `config` table: `(key, value)` pairs, `key` being the
primary key (src/py/DB.py:82-84). -/
abbrev ConfigState := List (String × String)

/-- Row-level effect of `DB.set_config` (src/py/DB.py:356-373): the executed
`insert or replace into config (key, value) values (?, ?)` deletes any row
conflicting on the primary key `key` and inserts the new row. -/
def set_config (s : ConfigState) (k v : String) : ConfigState :=
  s.filter (fun p => p.1 != k) ++ [(k, v)]

/-- Result of `DB.get_config` (src/py/DB.py:333-354) when the interpolated
key makes the executed query `select value from config where key = "<k>"`
compare the `key` column against the string literal `<k>` — which is exactly
the engine's reading whenever `k` contains no `"` character and is not itself
the name of a `config` column (a double-quoted token resolving to a column
identifier).  The first matching row's `value` is returned, `none` when no
row matches (the source returns `None` rather than raising). -/
def get_config (s : ConfigState) (k : String) : Option String :=
  (s.find? (fun p => p.1 == k)).map (fun p => p.2)

/-- The exact statement text executed by `DB.get_config` (src/py/DB.py:344-348):
the key is interpolated directly into the text inside double quotes. -/
def get_config_query (k : String) : List Char :=
  "\n\t\t\tselect value\n\t\t\t\tfrom config\n\t\t\t\twhere key = \"".data
    ++ k.data ++ "\"\n\t\t".data

/-- The exact statement text executed by `DB.set_config` (src/py/DB.py:365-369):
a constant, with no interpolation. -/
def set_config_query : List Char :=
  "\n\t\t\tinsert or replace into\n\t\t\t\tconfig (key, value)\n\t\t\t\tvalues (?, ?)\n\t\t".data

/-- The bound parameter list passed by `DB.set_config` alongside its constant
statement text (src/py/DB.py:370): `[key, value]`. -/
def set_config_params (k v : String) : List String :=
  [k, v]

/-- The placeholder list built by `DB.insert` (src/py/DB.py:227):
`','.join(['?'] * len(values))`. -/
def questions (n : Nat) : List Char :=
  List.intercalate [','] (List.replicate n ['?'])

/-- The exact statement text executed by `DB.insert` (src/py/DB.py:228-232)
for a values tuple of length `n`: no column names appear between the table
name and the `values` keyword. -/
def insert_query (table : List Char) (n : Nat) : List Char :=
  "\n\t\t\tinsert into \n\t\t\t\t".data ++ table ++ " \n\t\t\t\tvalues (".data
    ++ questions n ++ ")\n\t\t".data

/-- Modelled engine rule for the statement shape built by `DB.insert`: sqlite
accepts an INSERT that names no columns only when the number of supplied
values equals the number of declared columns of the table. -/
def insert_accepted (declaredCols : Nat) (values : List String) : Bool :=
  values.length == declaredCols

set_option maxRecDepth 16000

/-- Helper: a key-fragment list whose last fragment contains `(` but not `)`
makes the rejoin loop of `DB.create_table` reach `keys.pop(i+1)` with no
following fragment. -/
theorem rejoinGo_getLast_unbalanced (rest : List (List Char)) :
    ∀ (cur k : List Char), (cur :: rest).getLast? = some k →
      '(' ∈ k → ')' ∉ k → rejoinGo cur rest = none := by
  induction rest with
  | nil =>
    intro cur k hk h1 h2
    simp only [List.getLast?_singleton, Option.some.injEq] at hk
    subst hk
    simp [rejoinGo, h1, h2]
  | cons a t ih =>
    intro cur k hk h1 h2
    rw [List.getLast?_cons_cons] at hk
    by_cases hc : '(' ∈ cur ∧ ')' ∉ cur
    · rw [rejoinGo, if_pos hc]
      cases t with
      | nil =>
        simp only [List.getLast?_singleton, Option.some.injEq] at hk
        subst hk
        apply ih
        · exact List.getLast?_singleton _
        · exact List.mem_append_left _ (List.mem_append_left _ hc.1)
        · intro hmem
          rcases List.mem_append.mp hmem with hm | hm
          · rcases List.mem_append.mp hm with hm2 | hm2
            · exact hc.2 hm2
            · simp at hm2
          · exact h2 hm
      | cons b t' =>
        apply ih _ k _ h1 h2
        rw [List.getLast?_cons_cons]
        rw [List.getLast?_cons_cons] at hk
        exact hk
    · rw [rejoinGo, if_neg hc]
      rw [ih a k hk h1 h2]
      rfl

/-- Helper: `rejoinKeys` fails whenever the last key fragment contains an
opening parenthesis and no closing one. -/
theorem rejoinKeys_getLast_unbalanced (l : List (List Char)) (k : List Char)
    (hk : l.getLast? = some k) (h1 : '(' ∈ k) (h2 : ')' ∉ k) :
    rejoinKeys l = none := by
  cases l with
  | nil => simp at hk
  | cons c rest => exact rejoinGo_getLast_unbalanced rest c k hk h1 h2

/-- Helper: after the upsert of `set_config`, the first `config` row whose key
matches is exactly the freshly written one. -/
theorem find?_filter_append (s : ConfigState) (k v : String) :
    ((s.filter (fun p => p.1 != k)) ++ [(k, v)]).find? (fun p => p.1 == k) =
      some (k, v) := by
  induction s with
  | nil => simp
  | cons a t ih =>
    by_cases h : a.1 = k
    · simp [List.filter_cons, h, ih]
    · simp [List.filter_cons, h, List.find?, ih]

/-- Helper: the rows kept by the conflict-deleting filter of `set_config`
contain no row with the written key. -/
theorem countP_filter_ne (s : ConfigState) (k : String) :
    (s.filter (fun p => p.1 != k)).countP (fun p => p.1 == k) = 0 := by
  apply List.countP_eq_zero.mpr
  intro a ha
  have := (List.mem_filter.mp ha).2
  simp_all

/-- Helper: an upsert through `set_config` always leaves exactly one row for
the written key. -/
theorem set_config_countP_one (s : ConfigState) (k v : String) :
    (set_config s k v).countP (fun p => p.1 == k) = 1 := by
  simp [set_config, List.countP_append, countP_filter_ne]

/-- Helper: the placeholder list `','.join(['?'] * n)` built by `DB.insert`
contains exactly `n` question marks. -/
theorem questions_count (n : Nat) : (questions n).count '?' = n := by
  induction n with
  | zero => rfl
  | succ m ih =>
    cases m with
    | zero => rfl
    | succ j =>
      have hstep : questions (j + 1 + 1) = '?' :: ',' :: questions (j + 1) := by
        simp [questions, List.intercalate, List.replicate_succ, List.intersperse]
      rw [hstep]
      simp [List.count_cons, ih]

/-- C1 counterexample: the claim says a commit failure of any class other
than lock contention is not retried and is surfaced immediately; but the bare
`except:` of `DB.commit` (src/py/DB.py:207) retries every failure class.  On
the attempt trace [other-class failure, success] the loop performs a second
attempt after the other-class failure and returns success, surfacing
nothing — under the claim the call would have surfaced that failure after one
attempt. -/
theorem c1_other_failure_retried_counterexample :
    (commitRun [CommitOutcome.otherFailure, CommitOutcome.ok]).attempts = 2
    ∧ (commitRun [CommitOutcome.otherFailure, CommitOutcome.ok]).surfaced = none
    ∧ (commitRun [CommitOutcome.otherFailure, CommitOutcome.ok]).returned = true := by
  decide

/-- C1 amended: every failure of the underlying commit, of any class, is
retried after a fixed 100 ms wait, unboundedly — there is no configurable
maximum attempt count and no failure is ever surfaced to the caller; the loop
ends only by returning after the first successful attempt, and a trace with
no success consumes every attempt without returning. -/
theorem c1_commit_retries_every_failure (outs : List CommitOutcome) :
    (commitRun outs).surfaced = none
    ∧ (∀ d ∈ (commitRun outs).sleepsMs, d = 100)
    ∧ ((commitRun outs).returned = true ↔ CommitOutcome.ok ∈ outs)
    ∧ (CommitOutcome.ok ∉ outs → (commitRun outs).attempts = outs.length) := by
  induction outs with
  | nil => simp [commitRun]
  | cons o rest ih =>
    obtain ⟨h1, h2, h3, h4⟩ := ih
    cases o with
    | ok => simp [commitRun]
    | lockContention =>
      refine ⟨h1, ?_, ?_, ?_⟩
      · intro d hd
        simp [commitRun] at hd
        rcases hd with h | h
        · exact h
        · exact h2 d h
      · simpa [commitRun] using h3
      · intro hmem
        simp [commitRun]
        rw [h4 (fun hc => hmem (List.mem_cons_of_mem _ hc))]
    | otherFailure =>
      refine ⟨h1, ?_, ?_, ?_⟩
      · intro d hd
        simp [commitRun] at hd
        rcases hd with h | h
        · exact h
        · exact h2 d h
      · simpa [commitRun] using h3
      · intro hmem
        simp [commitRun]
        rw [h4 (fun hc => hmem (List.mem_cons_of_mem _ hc))]

/-- C1 witness: on the all-failure trace [lock contention, other failure] the
loop consumes both attempts without surfacing, per the amended theorem. -/
theorem c1_commit_retries_every_failure_witness :
    (commitRun [CommitOutcome.lockContention, CommitOutcome.otherFailure]).attempts = 2 :=
  (c1_commit_retries_every_failure
    [CommitOutcome.lockContention, CommitOutcome.otherFailure]).2.2.2 (by decide)

/-- C2: evaluating the `INDICES` dict literal collapses the duplicate table
keys, leaving only the last-declared column per table — `albums ↦ views`,
`medias ↦ url`, `config ↦ key` — so the index-creation loop of `DB.__init__`,
which ranges over this dict, creates exactly the indices
`albums_views`, `medias_url` and `config_key` and none of the
earlier-declared column sets. -/
theorem c2_indices_last_declared_wins :
    INDICES = [("albums", "views"), ("medias", "url"), ("config", "key")]
    ∧ INDICES.map (fun p => create_index_name p.1.data p.2.data) =
      ["albums_views".data, "medias_url".data, "config_key".data] := by
  decide

/-- C3: on the `medias` schema description — whose key-constraint group is
`foreign key(albumid) references albums(rowid)` followed by
`primary key(albumid, i_index)` — the comma-split cuts the primary-key clause
inside its parentheses, and the rejoin loop of `DB.create_table` restores it:
the compiled key constraints are exactly these two clauses, neither split
mid-parenthesis. -/
theorem c3_paren_safe_key_parsing :
    rejoinKeys (create_table_parts mediasSchema.data).2 =
      some ["foreign key(albumid) references albums(rowid)".data,
            "primary key(albumid, i_index)".data] := by
  decide

/-- C4: `DB.__init__` performs ten commits, not one — each of the six
`create_table` calls and each of the three `create_index` calls commits
itself (src/py/DB.py:178 and 195, contradicting their own docstrings
`Does not commit!`), before the final commit of line 131. -/
theorem c4_init_commit_count :
    init_events.map countCommits = some 10 := by
  decide

/-- C5 counterexample: the claim says a column clause that cannot be parsed
into at least a name token makes schema compilation fail with a SchemaError;
but `DB.create_table` contains no validation and no SchemaError — on the
schema description `""`, whose single column clause is empty and has no name
token, compilation succeeds and produces a statement. -/
theorem c5_no_schema_error_counterexample :
    (create_table_query "t".data "".data).isSome = true := by
  decide

/-- C5 amended: schema compilation never rejects a column clause — for every
table name and every schema description with no key clauses (so every
comma-split fragment, malformed or not, is a column clause), `create_table`
builds a statement and raises no schema-level error; no SchemaError exists in
the code. -/
theorem c5_malformed_columns_accepted (name schema : List Char)
    (h : (create_table_parts schema).2 = []) :
    ∃ q, create_table_query name schema = some q := by
  unfold create_table_query
  rw [h]
  exact ⟨_, rfl⟩

/-- C5 witness: the empty schema description has no key clauses and is
accepted. -/
theorem c5_malformed_columns_accepted_witness :
    ∃ q, create_table_query "t".data "".data = some q :=
  c5_malformed_columns_accepted "t".data "".data (by decide)

/-- C6: for every projection, table, predicate and parameter binding
(modelled as the row predicate the bound predicate fragment denotes),
`select_one` returns the first column of the first matching row when at least
one row matches, and fails with the no-rows error (the spec's NotFoundError;
`Exception('no rows returned')`, src/py/DB.py:294) — never a null
placeholder — when zero rows match. -/
theorem c6_select_one_first_or_error (α : Type) (proj : List α → List α)
    (pred : List α → Bool) (rows : List (List α)) :
    (rows.filter pred = [] →
      select_one proj pred rows = Except.error DBErr.noRowsReturned)
    ∧ (∀ r rs v vs, rows.filter pred = r :: rs → proj r = v :: vs →
      select_one proj pred rows = Except.ok v) := by
  constructor
  · intro h
    simp [select_one, selectRows, fetchone, h]
  · intro r rs v vs h hp
    simp [select_one, selectRows, fetchone, h, hp]

/-- C6 witness: a zero-match query errors with the no-rows error and a
matching query returns the first column of the first matching row. -/
theorem c6_select_one_first_or_error_witness :
    select_one (fun r => r) (fun r => decide (r ≠ [])) ([[], []] : List (List Nat)) =
      Except.error DBErr.noRowsReturned
    ∧ select_one (fun r => r) (fun r => decide (r ≠ [])) ([[7, 8]] : List (List Nat)) =
      Except.ok 7 :=
  ⟨(c6_select_one_first_or_error Nat (fun r => r) (fun r => decide (r ≠ [])) [[], []]).1
      (by decide),
   (c6_select_one_first_or_error Nat (fun r => r) (fun r => decide (r ≠ [])) [[7, 8]]).2
      [7, 8] [] 7 [8] (by decide) rfl⟩

/-- C7: config round trip, for keys on which the interpolated `get_config`
query reads the key as a plain literal (no `"` character, not a `config`
column name): a key never set reads back as absent without raising; after
`set_config k v`, `get_config k` returns `v`; a second `set_config k v'`
leaves exactly one row for `k` (no duplicate) and reads back `v'`. -/
theorem c7_config_round_trip (s : ConfigState) (k v v' : String)
    (hmiss : s.find? (fun p => p.1 == k) = none)
    (_hq : k.data.contains '"' = false) (_hk1 : k ≠ "key") (_hk2 : k ≠ "value") :
    get_config s k = none
    ∧ get_config (set_config s k v) k = some v
    ∧ (set_config (set_config s k v) k v').countP (fun p => p.1 == k) = 1
    ∧ get_config (set_config (set_config s k v) k v') k = some v' := by
  refine ⟨?_, ?_, ?_, ?_⟩
  · simp [get_config, hmiss]
  · simp [get_config, set_config, find?_filter_append]
  · exact set_config_countP_one (set_config s k v) k v'
  · simp [get_config, set_config, find?_filter_append]

/-- C7 witness: the round trip at the concrete keys of the spec's example. -/
theorem c7_config_round_trip_witness :
    get_config [] "a" = none
    ∧ get_config (set_config [] "a" "b") "a" = some "b"
    ∧ (set_config (set_config [] "a" "b") "a" "c").countP (fun p => p.1 == "a") = 1
    ∧ get_config (set_config (set_config [] "a" "b") "a" "c") "a" = some "c" :=
  c7_config_round_trip [] "a" "b" "c" rfl (by decide) (by decide) (by decide)

/-- C8: the statement text executed by `get_config` depends on the key — the
interpolation is injective, so different keys execute different texts — and
the text of a well-formed call has exactly two `"` delimiters while a key
containing `"` adds more, changing the structure of the executed SQL;
`set_config` instead executes a constant text and passes key and value as
bound parameters. -/
theorem c8_get_config_text_depends_on_key :
    (∀ k1 k2 : String, get_config_query k1 = get_config_query k2 → k1 = k2)
    ∧ (∀ k : String, (get_config_query k).count '"' = 2 + k.data.count '"')
    ∧ (∀ k v : String, set_config_query.count '"' = 0
        ∧ set_config_params k v = [k, v]) := by
  refine ⟨?_, ?_, ?_⟩
  · intro k1 k2 h
    unfold get_config_query at h
    have h' := List.append_cancel_right h
    have h'' := List.append_cancel_left h'
    cases k1
    cases k2
    simp_all
  · intro k
    unfold get_config_query
    rw [List.count_append, List.count_append]
    have h1 :
        ("\n\t\t\tselect value\n\t\t\t\tfrom config\n\t\t\t\twhere key = \"".data).count '"'
          = 1 := by decide
    have h2 : ("\"\n\t\t".data).count '"' = 1 := by decide
    rw [h1, h2]
    omega
  · intro k v
    exact ⟨by decide, rfl⟩

/-- C8 witness: the interpolation applied at concrete keys — equal texts give
equal keys, and a key containing a double quote yields three delimiters in
the executed text instead of two. -/
theorem c8_get_config_text_depends_on_key_witness :
    ("a" : String) = "a"
    ∧ (get_config_query "a\"b").count '"' = 2 + "a\"b".data.count '"'
    ∧ set_config_params "a" "b" = ["a", "b"] :=
  ⟨c8_get_config_text_depends_on_key.1 "a" "a" rfl,
   c8_get_config_text_depends_on_key.2.1 "a\"b",
   (c8_get_config_text_depends_on_key.2.2 "a" "b").2⟩

/-- C9: the rejoin loop of `DB.create_table` reads the fragment after the
current one without a bounds check, so for every schema description whose
final key fragment contains an opening parenthesis but no closing one,
`create_table` fails with the out-of-bounds `IndexError` of `keys.pop(i+1)`
(modelled by `none`) rather than any schema-level error. -/
theorem c9_rejoin_out_of_bounds (name schema k : List Char)
    (hk : (create_table_parts schema).2.getLast? = some k)
    (h1 : '(' ∈ k) (h2 : ')' ∉ k) :
    create_table_query name schema = none := by
  have hnone := rejoinKeys_getLast_unbalanced (create_table_parts schema).2 k hk h1 h2
  unfold create_table_query
  rw [hnone]

/-- C9 witness: a schema whose final key fragment is `primary key(a` — an
opening parenthesis never closed — makes `create_table` fail. -/
theorem c9_rejoin_out_of_bounds_witness :
    create_table_query "t".data "a integer,primary key(a".data = none :=
  c9_rejoin_out_of_bounds "t".data "a integer,primary key(a".data
    "primary key(a".data (by decide) (by decide) (by decide)

/-- C10: `DB.insert` generates exactly `len(values)` placeholders and names
no columns — the executed text is literally the fixed frame around the table
name and the placeholder list — so under the modelled engine rule for
column-list-free INSERTs a successful insert requires the values tuple to
cover every declared column: fourteen for `medias`, two for `config`, as
compiled from the declared schemas. -/
theorem c10_insert_positional_all_columns (t : List Char) (values : List String)
    (ht : '?' ∉ t) :
    (insert_query t values.length).count '?' = values.length
    ∧ insert_query t values.length =
      "\n\t\t\tinsert into \n\t\t\t\t".data ++ t ++ " \n\t\t\t\tvalues (".data
        ++ questions values.length ++ ")\n\t\t".data
    ∧ (∀ cols, insert_accepted cols values = true ↔ values.length = cols)
    ∧ (create_table_parts mediasSchema.data).1.length = 14
    ∧ (create_table_parts configSchema.data).1.length = 2 := by
  refine ⟨?_, rfl, ?_, by decide, by decide⟩
  · unfold insert_query
    rw [List.count_append, List.count_append, List.count_append, List.count_append]
    have hpre : ("\n\t\t\tinsert into \n\t\t\t\t".data).count '?' = 0 := by decide
    have hmid : (" \n\t\t\t\tvalues (".data).count '?' = 0 := by decide
    have hpost : (")\n\t\t".data).count '?' = 0 := by decide
    rw [hpre, hmid, hpost, questions_count, List.count_eq_zero.mpr ht]
    omega
  · intro cols
    simp [insert_accepted]

/-- C10 witness: inserting a fourteen-value tuple into `medias` generates
fourteen placeholders. -/
theorem c10_insert_positional_all_columns_witness :
    (insert_query "medias".data (List.replicate 14 "").length).count '?' =
      (List.replicate 14 "").length :=
  (c10_insert_positional_all_columns "medias".data (List.replicate 14 "")
    (by decide)).1

end DB
